import Mathlib

/-!
Shallow embedding of `src/tetris.c`: a fixed-capacity circular queue of
pieces (capacity 5), a bounded stack of reserved pieces (capacity 3), a
piece generator with a process-wide counter, and the five menu actions of
`main`.  C `char`/`int` values are modelled as `Int`; array slots as total
functions on `Fin n`; the `rand()` stream as an oracle `rng : Nat → Nat`
consumed one value per call.
-/

namespace Tetris

/-- Embeds `#define FILA_MAX 5`. -/
def FILA_MAX : Nat := 5

/-- Embeds `#define PILHA_MAX 3`. -/
def PILHA_MAX : Nat := 3

/-- Embeds `struct Peca`: a piece with a type tag `nome` (a C `char`, modelled as
its integer code) and an integer id. -/
structure Peca where
  nome : Int
  id : Int
deriving DecidableEq, Repr

/-- The invalid sentinel piece `{{-1}, -1}` returned by `removerFila` and
`popPilha` on empty containers. -/
def pecaInvalida : Peca := ⟨-1, -1⟩

/-- Embeds `struct Fila`: circular queue backed by a 5-slot array with head index
`inicio`, tail index `fim` and element count `total`.  The C indices are
`int`s kept in `[0,5)` by `% FILA_MAX`; modelled as `Fin 5`, whose `+ 1`
is exactly addition modulo 5. -/
@[ext]
structure Fila where
  itens : Fin 5 → Peca
  inicio : Fin 5
  fim : Fin 5
  total : Nat
deriving DecidableEq

/-- Embeds `struct Pilha`: bounded stack backed by a 3-slot array with top index
`topo` (`-1` when empty, hence an `Int`). -/
@[ext]
structure Pilha where
  itens : Fin 3 → Peca
  topo : Int
deriving DecidableEq

/-- Conversion of a C stack index to an array slot.  Under the guards of
the program `i` is always in `[0, 3)`, where this is the identity. -/
def idxPilha (i : Int) : Fin 3 := ⟨i.toNat % 3, Nat.mod_lt _ (by norm_num)⟩

/-- Embeds `inicializarFila`. -/
def inicializarFila (f : Fila) : Fila :=
  { f with inicio := 0, fim := 0, total := 0 }

/-- Embeds `filaVazia`. -/
def filaVazia (f : Fila) : Bool := f.total == 0

/-- Embeds `filaCheia`. -/
def filaCheia (f : Fila) : Bool := f.total == FILA_MAX

/-- Embeds `inserirFila` (enqueue): silently ignored when full; otherwise writes
at `fim`, advances `fim` circularly, increments `total`. -/
def inserirFila (f : Fila) (p : Peca) : Fila :=
  if filaCheia f then f
  else { f with itens := Function.update f.itens f.fim p,
                fim := f.fim + 1,
                total := f.total + 1 }

/-- Embeds `removerFila` (dequeue): returns the sentinel on an empty queue;
otherwise returns the head and advances `inicio` circularly. -/
def removerFila (f : Fila) : Peca × Fila :=
  if filaVazia f then (pecaInvalida, f)
  else (f.itens f.inicio,
        { f with inicio := f.inicio + 1, total := f.total - 1 })

/-- Embeds `inicializarPilha`. -/
def inicializarPilha (p : Pilha) : Pilha := { p with topo := -1 }

/-- Embeds `pilhaVazia`. -/
def pilhaVazia (p : Pilha) : Bool := p.topo == -1

/-- Embeds `pilhaCheia`. -/
def pilhaCheia (p : Pilha) : Bool := p.topo == (PILHA_MAX : Int) - 1

/-- Embeds `pushPilha`: silently ignored when full; otherwise increments `topo`
and writes there. -/
def pushPilha (p : Pilha) (peca : Peca) : Pilha :=
  if pilhaCheia p then p
  else { p with topo := p.topo + 1,
                itens := Function.update p.itens (idxPilha (p.topo + 1)) peca }

/-- Embeds `popPilha`: returns the sentinel on an empty stack; otherwise returns
the top and decrements `topo`. -/
def popPilha (p : Pilha) : Peca × Pilha :=
  if pilhaVazia p then (pecaInvalida, p)
  else (p.itens (idxPilha p.topo), { p with topo := p.topo - 1 })

/-- Embeds `char tipos[] = "IOTLSZJ"` as integer character codes. -/
def tipos : Fin 7 → Int
  | 0 => 73
  | 1 => 79
  | 2 => 84
  | 3 => 76
  | 4 => 83
  | 5 => 90
  | 6 => 74

/-- The state of `gerarPeca`: the `static int id_contador` and the number
of `rand()` calls consumed so far. -/
structure GenState where
  id_contador : Int
  rand_idx : Nat
deriving DecidableEq

/-- Embeds `gerarPeca`: picks `tipos[rand() % 7]`, assigns `id = id_contador++`. -/
def gerarPeca (rng : Nat → Nat) (g : GenState) : Peca × GenState :=
  (⟨tipos ⟨rng g.rand_idx % 7, Nat.mod_lt _ (by norm_num)⟩, g.id_contador⟩,
   ⟨g.id_contador + 1, g.rand_idx + 1⟩)

/-- The whole mutable state of `main`: the queue, the stack and the
generator state. -/
@[ext]
structure GameState where
  fila : Fila
  pilha : Pilha
  gen : GenState
deriving DecidableEq

/-- Embeds `main`, `case 1` (Play): if the queue is non-empty, dequeue and then
enqueue one freshly generated piece; otherwise report failure and leave
the state unchanged. -/
def jogarPeca (rng : Nat → Nat) (s : GameState) : GameState :=
  if filaVazia s.fila then s
  else
    let f1 := (removerFila s.fila).2
    let gp := gerarPeca rng s.gen
    { s with fila := inserirFila f1 gp.1, gen := gp.2 }

/-- The distinguishable outcomes of `main`, `case 2` (Reserve). -/
inductive ResultadoReserva where
  | pilhaCheiaErr : ResultadoReserva
  | filaVaziaErr : ResultadoReserva
  | ok : Peca → ResultadoReserva
deriving DecidableEq

/-- Embeds `main`, `case 2` (Reserve): checks stack-full first, then queue-empty;
on success dequeues, pushes, and refills the queue with a generated
piece. -/
def reservarPeca (rng : Nat → Nat) (s : GameState) : ResultadoReserva × GameState :=
  if pilhaCheia s.pilha then (ResultadoReserva.pilhaCheiaErr, s)
  else if filaVazia s.fila then (ResultadoReserva.filaVaziaErr, s)
  else
    let r := removerFila s.fila
    let p1 := pushPilha s.pilha r.1
    let gp := gerarPeca rng s.gen
    (ResultadoReserva.ok r.1,
     { fila := inserirFila r.2 gp.1, pilha := p1, gen := gp.2 })

/-- Embeds `main`, `case 3` (UseReserved): if the stack is non-empty, pop. -/
def usarPeca (s : GameState) : GameState :=
  if pilhaVazia s.pilha then s
  else { s with pilha := (popPilha s.pilha).2 }

/-- Embeds `main`, `case 4` (SwapFront): if both containers are non-empty,
exchange `fila.itens[fila.inicio]` and `pilha.itens[pilha.topo]` directly
in the arrays. -/
def trocarFrente (s : GameState) : GameState :=
  if filaVazia s.fila || pilhaVazia s.pilha then s
  else
    let temp := s.fila.itens s.fila.inicio
    { s with
      fila := { s.fila with
                itens := Function.update s.fila.itens s.fila.inicio
                  (s.pilha.itens (idxPilha s.pilha.topo)) },
      pilha := { s.pilha with
                 itens := Function.update s.pilha.itens (idxPilha s.pilha.topo) temp } }

/-- One iteration of the `for` loop in `main`, `case 5`: swaps the queue
slot `(inicio + i) % FILA_MAX` with the stack slot `topo - i`. -/
def trocaPasso (s : GameState) (i : Nat) : GameState :=
  let idx_fila : Fin 5 := ⟨(s.fila.inicio.val + i) % 5, Nat.mod_lt _ (by norm_num)⟩
  let idx_pilha : Fin 3 := idxPilha (s.pilha.topo - i)
  let temp := s.fila.itens idx_fila
  { s with
    fila := { s.fila with
              itens := Function.update s.fila.itens idx_fila (s.pilha.itens idx_pilha) },
    pilha := { s.pilha with
               itens := Function.update s.pilha.itens idx_pilha temp } }

/-- Embeds `main`, `case 5` (SwapTriple): fails unless `total >= 3` and
`topo >= 2`; otherwise runs the swap loop for `i = 0, 1, 2`. -/
def trocaMultipla (s : GameState) : GameState :=
  if s.fila.total < 3 || s.pilha.topo < 2 then s
  else trocaPasso (trocaPasso (trocaPasso s 0) 1) 2

/-- The startup loop of `main`: `n` iterations of
`inserirFila(&filaDePecas, gerarPeca())`. -/
def preencheFila (rng : Nat → Nat) : Nat → GameState → GameState
  | 0, s => s
  | Nat.succ n, s =>
      let gp := gerarPeca rng s.gen
      preencheFila rng n { s with fila := inserirFila s.fila gp.1, gen := gp.2 }

/-- The initial state of `main`: both containers initialized from
arbitrary (garbage) memory, the generator counter at 0, then the queue
filled with `FILA_MAX` generated pieces. -/
def estadoInicial (rng : Nat → Nat) (f0 : Fila) (p0 : Pilha) : GameState :=
  preencheFila rng FILA_MAX
    { fila := inicializarFila f0,
      pilha := inicializarPilha p0,
      gen := ⟨0, 0⟩ }

/-- The two queue-consuming actions of the refill-discipline claim. -/
inductive AcaoPR where
  | jogar : AcaoPR
  | reservar : AcaoPR
deriving DecidableEq

/-- Dispatch of one Play/Reserve command by `main`'s `switch`. -/
def executaPR (rng : Nat → Nat) (s : GameState) : AcaoPR → GameState
  | AcaoPR.jogar => jogarPeca rng s
  | AcaoPR.reservar => (reservarPeca rng s).2

/-- Sequential execution of a list of Play/Reserve commands. -/
def executaLista (rng : Nat → Nat) : List AcaoPR → GameState → GameState
  | [], s => s
  | a :: resto, s => executaLista rng resto (executaPR rng s a)

/-- The generator state after `n` calls to `gerarPeca` from process
start. -/
def genEstado (rng : Nat → Nat) : Nat → GenState
  | 0 => ⟨0, 0⟩
  | Nat.succ n => (gerarPeca rng (genEstado rng n)).2

/-- The piece returned by the `(n+1)`-st call to `gerarPeca` (0-based)
within one process. -/
def genPeca (rng : Nat → Nat) (n : Nat) : Peca :=
  (gerarPeca rng (genEstado rng n)).1

/-- The operations that touch a `Fila` anywhere in the program: enqueue,
dequeue, and the in-place slot writes performed by the two swap
actions. -/
inductive OpFila where
  | inserir : Peca → OpFila
  | remover : OpFila
  | escreve : Fin 5 → Peca → OpFila
deriving DecidableEq

/-- Effect of one queue operation on a `Fila`. -/
def aplicaOpFila (f : Fila) : OpFila → Fila
  | OpFila.inserir p => inserirFila f p
  | OpFila.remover => (removerFila f).2
  | OpFila.escreve i p => { f with itens := Function.update f.itens i p }

/-- Sequential application of queue operations. -/
def aplicaOps (f : Fila) : List OpFila → Fila
  | [] => f
  | op :: resto => aplicaOps (aplicaOpFila f op) resto

/-- The circular-buffer invariant of `Fila`: the tail index is derived
from head index and count modulo the capacity, and the control fields are
in range. -/
def FilaInv (f : Fila) : Prop :=
  f.fim.val = (f.inicio.val + f.total) % 5 ∧ f.total ≤ 5 ∧ f.inicio.val < 5

instance : DecidablePred FilaInv := fun f => by unfold FilaInv; infer_instance

/-- The physical slot of the queue element at logical position `i` from
the front, as computed by `main`, `case 5`: `(inicio + i) % FILA_MAX`. -/
def idxFilaTroca (f : Fila) (i : Nat) : Fin 5 :=
  ⟨(f.inicio.val + i) % 5, Nat.mod_lt _ (by norm_num)⟩

/-- Concrete full queue used by witnesses: pieces `I0 I1 I2 I3 I4`. -/
def filaEx : Fila := ⟨fun i => ⟨73, i.val⟩, 0, 0, 5⟩

/-- Concrete empty queue used by witnesses. -/
def filaEx0 : Fila := ⟨fun _ => pecaInvalida, 0, 0, 0⟩

/-- Concrete full stack used by witnesses: pieces `O10 O11 O12`
(top `O12`). -/
def pilhaEx : Pilha := ⟨fun i => ⟨79, 10 + i.val⟩, 2⟩

/-- Concrete empty stack used by witnesses. -/
def pilhaEx0 : Pilha := ⟨fun _ => pecaInvalida, -1⟩

/-- Concrete `rand()` oracle used by witnesses. -/
def rngEx : Nat → Nat := fun _ => 0

/-- Concrete piece used by witnesses. -/
def pecaEx : Peca := ⟨84, 99⟩

/-- Concrete game state with full queue and full stack. -/
def gameEx : GameState := ⟨filaEx, pilhaEx, ⟨8, 8⟩⟩

/-- Concrete game state with full queue and empty stack. -/
def gameEx1 : GameState := ⟨filaEx, pilhaEx0, ⟨5, 5⟩⟩

/-- Concrete game state with empty queue and empty stack. -/
def gameEx0 : GameState := ⟨filaEx0, pilhaEx0, ⟨0, 0⟩⟩

/-- Concrete game state with empty queue and full stack. -/
def gameEx2 : GameState := ⟨filaEx0, pilhaEx, ⟨0, 0⟩⟩

/-! ## Theorems -/

lemma val_fin5_zero : ((0 : Fin 5) : Nat) = 0 := rfl
lemma val_fin5_one : ((1 : Fin 5) : Nat) = 1 := rfl
lemma val_fin5_two : ((2 : Fin 5) : Nat) = 2 := rfl
lemma val_fin5_three : ((3 : Fin 5) : Nat) = 3 := rfl
lemma val_fin5_four : ((4 : Fin 5) : Nat) = 4 := rfl
lemma val_fin3_zero : ((0 : Fin 3) : Nat) = 0 := rfl
lemma val_fin3_one : ((1 : Fin 3) : Nat) = 1 := rfl
lemma val_fin3_two : ((2 : Fin 3) : Nat) = 2 := rfl

lemma genEstado_contador (rng : Nat → Nat) (n : Nat) :
    (genEstado rng n).id_contador = n := by
  induction n with
  | zero => rfl
  | succ n ih => simp [genEstado, gerarPeca, ih]

lemma genPeca_id (rng : Nat → Nat) (n : Nat) : (genPeca rng n).id = n := by
  simp [genPeca, gerarPeca, genEstado_contador]

lemma tipos_mem (k : Fin 7) :
    tipos k ∈ ([73, 79, 84, 76, 83, 90, 74] : List Int) := by
  fin_cases k <;> decide

/-- C5: dequeue on an empty queue and pop on an empty stack each return
the invalid sentinel piece and leave the container unchanged, so
emptiness still holds afterwards. -/
theorem claim_C5 (f : Fila) (p : Pilha) :
    (filaVazia f = true →
      removerFila f = (pecaInvalida, f) ∧ filaVazia (removerFila f).2 = true) ∧
    (pilhaVazia p = true →
      popPilha p = (pecaInvalida, p) ∧ pilhaVazia (popPilha p).2 = true) := by
  constructor
  · intro h
    simp [removerFila, h]
  · intro h
    simp [popPilha, h]

theorem claim_C5_witness :
    (removerFila filaEx0 = (pecaInvalida, filaEx0) ∧
      filaVazia (removerFila filaEx0).2 = true) ∧
    (popPilha pilhaEx0 = (pecaInvalida, pilhaEx0) ∧
      pilhaVazia (popPilha pilhaEx0).2 = true) :=
  ⟨(claim_C5 filaEx0 pilhaEx0).1 (by decide),
   (claim_C5 filaEx0 pilhaEx0).2 (by decide)⟩

/-- C6: Reserve checks stack-full before queue-empty; the two failures
yield distinct results and in both the whole state (queue, stack and
generator) is returned unchanged, so no dequeue and no refill happen. -/
theorem claim_C6 (rng : Nat → Nat) (s : GameState) :
    (pilhaCheia s.pilha = true →
      reservarPeca rng s = (ResultadoReserva.pilhaCheiaErr, s)) ∧
    (pilhaCheia s.pilha = false → filaVazia s.fila = true →
      reservarPeca rng s = (ResultadoReserva.filaVaziaErr, s)) := by
  constructor
  · intro h
    simp [reservarPeca, h]
  · intro h1 h2
    simp [reservarPeca, h1, h2]

theorem claim_C6_witness :
    reservarPeca rngEx gameEx2 = (ResultadoReserva.pilhaCheiaErr, gameEx2) ∧
    reservarPeca rngEx gameEx0 = (ResultadoReserva.filaVaziaErr, gameEx0) :=
  ⟨(claim_C6 rngEx gameEx2).1 (by decide),
   (claim_C6 rngEx gameEx0).2 (by decide) (by decide)⟩

/-- C7: generated piece ids start at 0, increase by exactly 1 per call,
and are strictly increasing across any two calls in generation order. -/
theorem claim_C7 (rng : Nat → Nat) :
    (genPeca rng 0).id = 0 ∧
    (∀ n : Nat, (genPeca rng (n + 1)).id = (genPeca rng n).id + 1) ∧
    (∀ n m : Nat, n < m → (genPeca rng n).id < (genPeca rng m).id) := by
  refine ⟨by simp [genPeca_id], fun n => by simp [genPeca_id], fun n m h => ?_⟩
  rw [genPeca_id, genPeca_id]
  exact_mod_cast h

theorem claim_C7_witness :
    (genPeca rngEx 0).id = 0 ∧ (genPeca rngEx 3).id < (genPeca rngEx 4).id :=
  ⟨(claim_C7 rngEx).1, (claim_C7 rngEx).2.2 3 4 (by decide)⟩

/-- C8: enqueue on a full queue and push on a full stack are silent
no-ops: the container is returned entirely unchanged (no element
overwritten, no index or count changed). -/
theorem claim_C8 (f : Fila) (p : Peca) (st : Pilha) (q : Peca) :
    (filaCheia f = true → inserirFila f p = f) ∧
    (pilhaCheia st = true → pushPilha st q = st) := by
  constructor
  · intro h
    simp [inserirFila, h]
  · intro h
    simp [pushPilha, h]

theorem claim_C8_witness :
    inserirFila filaEx pecaEx = filaEx ∧ pushPilha pilhaEx pecaEx = pilhaEx :=
  ⟨(claim_C8 filaEx pecaEx pilhaEx pecaEx).1 (by decide),
   (claim_C8 filaEx pecaEx pilhaEx pecaEx).2 (by decide)⟩

/-- C10: every generated piece has a nonnegative id and a type from the
7-symbol alphabet `IOTLSZJ`, hence never equals the invalid sentinel. -/
theorem claim_C10 (rng : Nat → Nat) (n : Nat) :
    0 ≤ (genPeca rng n).id ∧
    (genPeca rng n).nome ∈ ([73, 79, 84, 76, 83, 90, 74] : List Int) ∧
    genPeca rng n ≠ pecaInvalida := by
  have hid : (genPeca rng n).id = n := genPeca_id rng n
  refine ⟨hid ▸ Int.natCast_nonneg n, ?_, ?_⟩
  · show (genPeca rng n).nome ∈ _
    simp only [genPeca, gerarPeca]
    exact tipos_mem _
  · intro heq
    have hbad : pecaInvalida.id = (n : Int) := heq ▸ hid
    simp [pecaInvalida] at hbad

lemma filaInv_aplicaOp (f : Fila) (op : OpFila) (h : FilaInv f) :
    FilaInv (aplicaOpFila f op) := by
  obtain ⟨h1, h2, h3⟩ := h
  have hf : f.fim.val < 5 := f.fim.isLt
  cases op with
  | inserir p =>
      rcases eq_or_ne f.total 5 with h5 | h5 <;>
        simp [aplicaOpFila, inserirFila, filaCheia, FILA_MAX, h5, FilaInv,
          Fin.val_add, Fin.val_one] <;>
        omega
  | remover =>
      rcases eq_or_ne f.total 0 with h0 | h0 <;>
        simp [aplicaOpFila, removerFila, filaVazia, h0, FilaInv,
          Fin.val_add, Fin.val_one] <;>
        omega
  | escreve i p =>
      exact ⟨h1, h2, h3⟩

lemma filaInv_aplicaOps (f : Fila) (h : FilaInv f) (ops : List OpFila) :
    FilaInv (aplicaOps f ops) := by
  induction ops generalizing f with
  | nil => exact h
  | cons op resto ih => exact ih _ (filaInv_aplicaOp f op h)

/-- C9: every queue state reachable from `inicializarFila` by enqueues,
dequeues and in-place slot writes satisfies
`fim = (inicio + total) % 5`, `total ≤ 5` and `inicio < 5`, and every
single queue operation preserves this invariant. -/
theorem claim_C9 :
    (∀ (f0 : Fila) (ops : List OpFila), FilaInv (aplicaOps (inicializarFila f0) ops)) ∧
    (∀ (f : Fila) (op : OpFila), FilaInv f → FilaInv (aplicaOpFila f op)) :=
  ⟨fun f0 ops =>
    filaInv_aplicaOps _ (by simp [inicializarFila, FilaInv]) ops,
   fun f op h => filaInv_aplicaOp f op h⟩

theorem claim_C9_witness :
    FilaInv (aplicaOps (inicializarFila filaEx) [OpFila.inserir pecaEx, OpFila.remover]) ∧
    FilaInv (aplicaOpFila filaEx OpFila.remover) :=
  ⟨claim_C9.1 filaEx [OpFila.inserir pecaEx, OpFila.remover],
   claim_C9.2 filaEx OpFila.remover (by decide)⟩

lemma total_jogarPeca (rng : Nat → Nat) (s : GameState) (h : s.fila.total = 5) :
    (jogarPeca rng s).fila.total = 5 := by
  simp [jogarPeca, filaVazia, h, removerFila, inserirFila, filaCheia, FILA_MAX]

lemma pilhaCheia_eq (p : Pilha) : pilhaCheia p = (p.topo == 2) := rfl

lemma total_reservarPeca (rng : Nat → Nat) (s : GameState) (h : s.fila.total = 5) :
    ((reservarPeca rng s).2).fila.total = 5 := by
  rcases eq_or_ne s.pilha.topo 2 with hc | hc <;>
    simp [reservarPeca, pilhaCheia_eq, hc, filaVazia, h, removerFila,
      pushPilha, inserirFila, filaCheia, FILA_MAX]

lemma total_executaPR (rng : Nat → Nat) (s : GameState) (a : AcaoPR)
    (h : s.fila.total = 5) : (executaPR rng s a).fila.total = 5 := by
  cases a with
  | jogar => exact total_jogarPeca rng s h
  | reservar => exact total_reservarPeca rng s h

lemma preencheFila_total (rng : Nat → Nat) (n : Nat) :
    ∀ s : GameState, s.fila.total + n ≤ 5 →
      (preencheFila rng n s).fila.total = s.fila.total + n := by
  induction n with
  | zero => intro s _; simp [preencheFila]
  | succ n ih =>
      intro s h
      have hne : s.fila.total ≠ 5 := by omega
      have h' : (inserirFila s.fila (gerarPeca rng s.gen).1).total = s.fila.total + 1 := by
        simp [inserirFila, filaCheia, FILA_MAX, hne]
      have hrec := ih ⟨inserirFila s.fila (gerarPeca rng s.gen).1, s.pilha, (gerarPeca rng s.gen).2⟩ (by simp only [h']; omega)
      show (preencheFila rng n ⟨inserirFila s.fila (gerarPeca rng s.gen).1, s.pilha, (gerarPeca rng s.gen).2⟩).fila.total = s.fila.total + (n + 1)
      rw [hrec]
      simp only [h']
      omega

/-- C1: starting from `main`'s initial state (queue filled with 5
pieces), every sequence of Play and Reserve commands leaves the queue
count at exactly 5; in particular it is 5 immediately after each
successful Play and each successful Reserve, because each successful
removal is immediately followed by one enqueue of a generated piece. -/
theorem claim_C1 (rng : Nat → Nat) (f0 : Fila) (p0 : Pilha) (acts : List AcaoPR) :
    (executaLista rng acts (estadoInicial rng f0 p0)).fila.total = 5 := by
  have hinit : (estadoInicial rng f0 p0).fila.total = 5 := by
    have hfill := preencheFila_total rng 5
      ⟨inicializarFila f0, inicializarPilha p0, ⟨0, 0⟩⟩ (by simp [inicializarFila])
    simpa [estadoInicial, FILA_MAX, inicializarFila] using hfill
  suffices H : ∀ (l : List AcaoPR) (s : GameState), s.fila.total = 5 →
      (executaLista rng l s).fila.total = 5 from H acts _ hinit
  intro l
  induction l with
  | nil => intro s h; exact h
  | cons a resto ih => intro s h; exact ih _ (total_executaPR rng s a h)

/-- C3: SwapFront fails with no state change unless both containers are
non-empty; on success the queue-front and stack-top values are exchanged
in place, every other slot is untouched, and the control fields (head,
tail, count, top) and the generator state are unchanged. -/
theorem claim_C3 (s : GameState) :
    ((filaVazia s.fila = true ∨ pilhaVazia s.pilha = true) → trocarFrente s = s) ∧
    (filaVazia s.fila = false → pilhaVazia s.pilha = false →
      (trocarFrente s).fila.itens s.fila.inicio = s.pilha.itens (idxPilha s.pilha.topo) ∧
      (trocarFrente s).pilha.itens (idxPilha s.pilha.topo) = s.fila.itens s.fila.inicio ∧
      (∀ j : Fin 5, j ≠ s.fila.inicio → (trocarFrente s).fila.itens j = s.fila.itens j) ∧
      (∀ j : Fin 3, j ≠ idxPilha s.pilha.topo → (trocarFrente s).pilha.itens j = s.pilha.itens j) ∧
      (trocarFrente s).fila.inicio = s.fila.inicio ∧
      (trocarFrente s).fila.fim = s.fila.fim ∧
      (trocarFrente s).fila.total = s.fila.total ∧
      (trocarFrente s).pilha.topo = s.pilha.topo ∧
      (trocarFrente s).gen = s.gen) := by
  constructor
  · intro h
    rcases h with h | h <;> simp [trocarFrente, h]
  · intro h1 h2
    simp only [trocarFrente, h1, h2, Bool.or_self, if_false]
    refine ⟨?_, ?_, ?_, ?_, rfl, rfl, rfl, rfl, rfl⟩
    · simp
    · simp
    · intro j hj
      simp [Function.update_noteq hj]
    · intro j hj
      simp [Function.update_noteq hj]

theorem claim_C3_witness :
    trocarFrente gameEx2 = gameEx2 ∧
    (trocarFrente gameEx).fila.itens gameEx.fila.inicio
      = gameEx.pilha.itens (idxPilha gameEx.pilha.topo) ∧
    (trocarFrente gameEx).pilha.itens (idxPilha gameEx.pilha.topo)
      = gameEx.fila.itens gameEx.fila.inicio :=
  ⟨(claim_C3 gameEx2).1 (Or.inl (by decide)),
   ((claim_C3 gameEx).2 (by decide) (by decide)).1,
   ((claim_C3 gameEx).2 (by decide) (by decide)).2.1⟩

/-- C2: SwapTriple fails with no state change unless the queue has at
least 3 elements and the stack top index is at least 2; on success, for
each offset `i` in `{0,1,2}` the queue slot at logical position `i` from
the front (with wraparound) and the stack slot `i` below the top are
exchanged, queue logical positions 3 and 4 and any stack slot below the
exchanged three are untouched, and all counts, indices and the generator
are unchanged. -/
theorem claim_C2 (s : GameState) :
    ((s.fila.total < 3 ∨ s.pilha.topo < 2) → trocaMultipla s = s) ∧
    (3 ≤ s.fila.total → 2 ≤ s.pilha.topo → s.pilha.topo < 3 →
      (∀ i : Fin 3,
        (trocaMultipla s).fila.itens (idxFilaTroca s.fila i.val)
            = s.pilha.itens (idxPilha (s.pilha.topo - i.val)) ∧
        (trocaMultipla s).pilha.itens (idxPilha (s.pilha.topo - i.val))
            = s.fila.itens (idxFilaTroca s.fila i.val)) ∧
      (trocaMultipla s).fila.itens (idxFilaTroca s.fila 3)
          = s.fila.itens (idxFilaTroca s.fila 3) ∧
      (trocaMultipla s).fila.itens (idxFilaTroca s.fila 4)
          = s.fila.itens (idxFilaTroca s.fila 4) ∧
      (∀ j : Fin 3, (j.val : Int) < s.pilha.topo - 2 →
        (trocaMultipla s).pilha.itens j = s.pilha.itens j) ∧
      (trocaMultipla s).fila.total = s.fila.total ∧
      (trocaMultipla s).fila.inicio = s.fila.inicio ∧
      (trocaMultipla s).fila.fim = s.fila.fim ∧
      (trocaMultipla s).pilha.topo = s.pilha.topo ∧
      (trocaMultipla s).gen = s.gen) := by
  constructor
  · intro h
    rcases h with h | h <;> simp [trocaMultipla, h]
  · intro h1 h2 h3
    obtain ⟨⟨fitens, qi, qf, qt⟩, ⟨pitens, pt⟩, g⟩ := s
    replace h1 : 3 ≤ qt := h1
    replace h2 : (2 : Int) ≤ pt := h2
    replace h3 : pt < 3 := h3
    have ht : pt = 2 := by omega
    subst ht
    have hq3 : ¬ qt < 3 := by omega
    obtain ⟨qiv, hqiv⟩ := qi
    interval_cases qiv <;>
      exact ⟨fun i => by
          obtain ⟨iv, hiv⟩ := i
          interval_cases iv <;> constructor <;>
            simp [trocaMultipla, trocaPasso, idxFilaTroca, idxPilha, hq3,
              Function.update_apply, Fin.ext_iff, val_fin5_zero, val_fin5_one,
              val_fin5_two, val_fin5_three, val_fin5_four, val_fin3_zero,
              val_fin3_one, val_fin3_two],
        by simp [trocaMultipla, trocaPasso, idxFilaTroca, idxPilha, hq3,
              Function.update_apply, Fin.ext_iff, val_fin5_zero, val_fin5_one,
              val_fin5_two, val_fin5_three, val_fin5_four, val_fin3_zero,
              val_fin3_one, val_fin3_two],
        by simp [trocaMultipla, trocaPasso, idxFilaTroca, idxPilha, hq3,
              Function.update_apply, Fin.ext_iff, val_fin5_zero, val_fin5_one,
              val_fin5_two, val_fin5_three, val_fin5_four, val_fin3_zero,
              val_fin3_one, val_fin3_two],
        fun j hj => by simp at hj; omega,
        by simp [trocaMultipla, trocaPasso, hq3],
        by simp [trocaMultipla, trocaPasso, hq3],
        by simp [trocaMultipla, trocaPasso, hq3],
        by simp [trocaMultipla, trocaPasso, hq3],
        by simp [trocaMultipla, trocaPasso, hq3]⟩

theorem claim_C2_witness :
    trocaMultipla gameEx0 = gameEx0 ∧
    (trocaMultipla gameEx).fila.itens (idxFilaTroca gameEx.fila (0 : Fin 3).val)
      = gameEx.pilha.itens (idxPilha (gameEx.pilha.topo - ((0 : Fin 3).val : Int))) :=
  ⟨(claim_C2 gameEx0).1 (Or.inl (by decide)),
   (((claim_C2 gameEx).2 (by decide) (by decide) (by decide)).1 0).1⟩

set_option maxHeartbeats 2000000 in
/-- C4: on every state satisfying the respective precondition, SwapFront
applied twice with no intervening mutation restores the original state,
and SwapTriple applied twice restores the original state (in particular
the original queue-front/stack-top values and the original 3+3
arrangement). -/
theorem claim_C4 (s : GameState) :
    ((filaVazia s.fila = false ∧ pilhaVazia s.pilha = false) →
      trocarFrente (trocarFrente s) = s) ∧
    ((3 ≤ s.fila.total ∧ 2 ≤ s.pilha.topo ∧ s.pilha.topo < 3) →
      trocaMultipla (trocaMultipla s) = s) := by
  constructor
  · rintro ⟨h1, h2⟩
    obtain ⟨⟨fitens, qi, qf, qt⟩, ⟨pitens, pt⟩, g⟩ := s
    replace h1 : (qt == 0) = false := h1
    replace h2 : (pt == -1) = false := h2
    simp [trocarFrente, filaVazia, pilhaVazia, h1, h2, Function.update_idem,
      Function.update_same, Function.update_eq_self]
  · rintro ⟨h1, h2, h3⟩
    obtain ⟨⟨fitens, qi, qf, qt⟩, ⟨pitens, pt⟩, g⟩ := s
    replace h1 : 3 ≤ qt := h1
    replace h2 : (2 : Int) ≤ pt := h2
    replace h3 : pt < 3 := h3
    have ht : pt = 2 := by omega
    subst ht
    have hq3 : ¬ qt < 3 := by omega
    obtain ⟨qiv, hqiv⟩ := qi
    interval_cases qiv <;>
      (refine GameState.ext (Fila.ext (funext fun j => ?_) ?_ ?_ ?_)
        (Pilha.ext (funext fun j => ?_) ?_) ?_ <;>
       first
         | (obtain ⟨jv, hjv⟩ := j
            interval_cases jv <;>
              simp [trocaMultipla, trocaPasso, idxPilha, hq3,
                Function.update_apply, Fin.ext_iff, val_fin5_zero, val_fin5_one,
                val_fin5_two, val_fin5_three, val_fin5_four, val_fin3_zero,
                val_fin3_one, val_fin3_two])
         | simp [trocaMultipla, trocaPasso, hq3])

theorem claim_C4_witness :
    trocarFrente (trocarFrente gameEx) = gameEx ∧
    trocaMultipla (trocaMultipla gameEx) = gameEx :=
  ⟨(claim_C4 gameEx).1 ⟨by decide, by decide⟩,
   (claim_C4 gameEx).2 ⟨by decide, by decide, by decide⟩⟩

end Tetris
